import Mathlib

/-!
# Verification of the Auracelle-Bach governance toy-model layer

Shallow embedding of the numerical routines of `bach_api_utils.py`
(class `BachGovernanceAPI` and class `DataIngress`) and of the
session-state login gates of the page scripts.

Modelling conventions:

* Python `float` is an IEEE-754 double.  Where a routine *branches* on a
  comparison of computed floats against a decimal literal (the threshold
  tests in `predict_convergence_timeline`), the embedding models the float
  arithmetic exactly: `fl : ℚ → ℚ` rounds a rational to 53 significant
  binary digits (round-to-nearest, ties-to-even), and each Python
  arithmetic operation `x ⊕ y` becomes `fl (x ⊕ y)`.  This exactness
  matters: e.g. the alignment gap between `"USA"` and `"GBR"` under
  `"AI Ethics"` is exactly 1/10 in ideal arithmetic but strictly below
  the float literal `0.1` in double arithmetic, which selects a
  different branch of the estimator.
* Routines whose claimed properties are insensitive to rounding (the
  Kalman recursion, the diffusion simulation, the Pareto dominance
  structure, the cosine-similarity matcher) are embedded in exact
  rational / real arithmetic.
* `math.log`, `math.exp` and square roots are idealised as the exact
  real functions; only their signs and coarse bounds are ever used.
* Python `round(x, n)` rounds the exact value of the double `x` to `n`
  decimal places (ties to even) and re-rounds to a double; `roundTE`
  below is the ties-to-even integer rounding it is built from.
* Fallible code (the `ZeroDivisionError` reachable in
  `predict_convergence_timeline`, the HTTP fetchers) returns
  `Except` / `Option`.
-/

set_option linter.unusedVariables false
set_option maxRecDepth 8000

/- Batteries marks the `Rat` field operations `@[irreducible]`; restore
ordinary unfolding locally so that concrete rational computations can be
settled by `decide` (the kernel itself ignores reducibility, so this
changes nothing about what the kernel accepts). -/
set_option allowUnsafeReducibility true
attribute [local semireducible] Rat.add Rat.mul Rat.sub Rat.div Rat.inv Rat.floor Rat.ceil Rat.blt Rat.ofScientific

namespace Bach

/-- Round a rational to the nearest integer, ties to even (the rounding
used both by IEEE-754 binary arithmetic on the scaled significand and
by Python's `round`). -/
def roundTE (q : ℚ) : ℤ :=
  let n := ⌊q⌋
  let f := q - (n : ℚ)
  if f < 1/2 then n
  else if 1/2 < f then n + 1
  else if n % 2 = 0 then n else n + 1

/-- `⌊log₂ n⌋` for natural `n ≥ 1`, by fuel recursion (fuel 100 is ample
for every quantity in this development). -/
def log2floorAux : ℕ → ℕ → ℕ
  | 0, _ => 0
  | fuel+1, n => if n ≤ 1 then 0 else log2floorAux fuel (n / 2) + 1

/-- `⌊log₂ q⌋` for positive rationals in `(2^-32, 2^64)` (the range of
every float appearing in this code base). -/
def qlog2 (q : ℚ) : ℤ :=
  (log2floorAux 100 ((q * 2 ^ 32).floor.toNat) : ℤ) - 32

/-- Round a positive rational to 53 significant binary digits
(round-to-nearest, ties-to-even). -/
def flPos (x : ℚ) : ℚ :=
  let e := qlog2 x
  (roundTE (x * 2 ^ (52 - e)) : ℚ) * 2 ^ (e - 52)

/-- IEEE-754 double rounding of a rational (normal range; all values in
this code base are far from overflow/underflow). -/
def fl (q : ℚ) : ℚ :=
  if q = 0 then 0
  else if q < 0 then -flPos (-q)
  else flPos q

/-- Python float addition. -/
def pyAdd (x y : ℚ) : ℚ := fl (x + y)

/-- Python float subtraction. -/
def pySub (x y : ℚ) : ℚ := fl (x - y)

/-- Python float multiplication. -/
def pyMul (x y : ℚ) : ℚ := fl (x * y)

/-- Python float division. -/
def pyDiv (x y : ℚ) : ℚ := fl (x / y)

/-- Python `round(x, 3)` on a double: round the exact value ties-to-even
at the third decimal, then back to a double. -/
def pyRound3 (q : ℚ) : ℚ := fl ((roundTE (q * 1000) : ℚ) / 1000)

/-- Ideal (exact-rational) `round(x, 3)`, used for the routines embedded
in exact arithmetic. -/
def roundQ3 (q : ℚ) : ℚ := (roundTE (q * 1000) : ℚ) / 1000

/-- Ideal (exact-rational) `round(x, 1)`. -/
def roundQ1 (q : ℚ) : ℚ := (roundTE (q * 10) : ℚ) / 10

/-! ## Static data tables (`bach_api_utils.py`, lines 84-127 and 358-427) -/

/-- One OECD AI principle of the static fallback table
(`DataIngress._initialize_static_fallback`, `'oecd_principles'`). -/
structure OecdPrinciple where
  name : String
  description : String
  weight : ℚ
  category : String
deriving DecidableEq

def oecd_principles_static : List OecdPrinciple :=
  [ { name := "Inclusive growth, sustainable development and well-being",
      description := "AI should benefit people and the planet by driving inclusive growth and sustainable development",
      weight := 0.9, category := "societal" },
    { name := "Human-centred values and fairness",
      description := "AI systems should respect rule of law, human rights, democratic values and diversity",
      weight := 0.95, category := "ethical" },
    { name := "Transparency and explainability",
      description := "People should understand AI-based outcomes and be able to challenge them",
      weight := 0.85, category := "technical" },
    { name := "Robustness, security and safety",
      description := "AI systems should function appropriately throughout their life cycles",
      weight := 0.9, category := "technical" },
    { name := "Accountability",
      description := "Organizations deploying AI should be accountable for its proper functioning",
      weight := 0.95, category := "governance" } ]

/-- Privacy International country record (`'privacy_scores'`). -/
structure PrivacyScore where
  legal_framework : ℚ
  enforcement : ℚ
  surveillance_concerns : ℚ
  data_protection : ℚ
  overall : ℚ
deriving DecidableEq

def privacy_scores_static : List (String × PrivacyScore) :=
  [ ("USA", ⟨0.65, 0.70, 0.50, 0.68, 0.63⟩),
    ("GBR", ⟨0.85, 0.82, 0.60, 0.88, 0.79⟩),
    ("CHN", ⟨0.50, 0.45, 0.20, 0.40, 0.39⟩),
    ("JPN", ⟨0.80, 0.75, 0.70, 0.82, 0.77⟩),
    ("IND", ⟨0.70, 0.65, 0.55, 0.72, 0.66⟩),
    ("BRA", ⟨0.78, 0.70, 0.65, 0.75, 0.72⟩),
    ("ARE", ⟨0.60, 0.55, 0.45, 0.58, 0.55⟩) ]

/-- ParlaMint argumentation-pattern record (`'argumentation_patterns'`). -/
structure ArgumentationPattern where
  primary_frame : String
  secondary_frame : String
  rhetoric_style : String
  consensus_tendency : ℚ
  debate_intensity : ℚ
deriving DecidableEq

def argumentation_patterns_static : List (String × ArgumentationPattern) :=
  [ ("USA", ⟨"Innovation & Competitiveness", "National Security", "pragmatic", 0.65, 0.80⟩),
    ("GBR", ⟨"Human Rights & Ethics", "Economic Impact", "balanced", 0.72, 0.70⟩),
    ("CHN", ⟨"State Control & Social Stability", "Technological Leadership", "directive", 0.90, 0.40⟩),
    ("JPN", ⟨"Public Trust & Safety", "Industrial Policy", "consensus-oriented", 0.85, 0.50⟩),
    ("IND", ⟨"Digital Sovereignty", "Inclusive Development", "pluralistic", 0.60, 0.75⟩),
    ("BRA", ⟨"Social Justice", "Data Rights", "advocacy-driven", 0.58, 0.78⟩),
    ("ARE", ⟨"Smart Nation Vision", "Regional Leadership", "aspirational", 0.75, 0.55⟩) ]

/-- OECD adoption record (`BachGovernanceAPI.__init__`, `self.oecd_adoption`). -/
structure OecdCompliance where
  adoption_level : ℚ
  implementation_score : ℚ
  signatory : Bool
deriving DecidableEq

def oecd_adoption : List (String × OecdCompliance) :=
  [ ("USA", ⟨0.85, 0.75, true⟩),
    ("GBR", ⟨0.90, 0.82, true⟩),
    ("CHN", ⟨0.60, 0.55, false⟩),
    ("JPN", ⟨0.88, 0.80, true⟩),
    ("IND", ⟨0.75, 0.68, true⟩),
    ("BRA", ⟨0.72, 0.65, true⟩),
    ("ARE", ⟨0.68, 0.60, false⟩) ]

/-! ## Lookup helpers (`bach_api_utils.py`, lines 884-907)

`BachGovernanceAPI.privacy_scores` and `.argumentation_patterns` are the
static fallback tables above: both branches of the Phase-2 fetchers
install the static tables as `'scores'` / `'patterns'` (lines 177-302),
so the `.get(iso3, default)` lookups below read exactly those tables. -/

def get_oecd_compliance (iso3 : String) : OecdCompliance :=
  ((oecd_adoption.lookup iso3).getD ⟨0.50, 0.45, false⟩)

def get_privacy_score (iso3 : String) : PrivacyScore :=
  ((privacy_scores_static.lookup iso3).getD ⟨0.50, 0.50, 0.50, 0.50, 0.50⟩)

def get_argumentation_pattern (iso3 : String) : ArgumentationPattern :=
  ((argumentation_patterns_static.lookup iso3).getD
    ⟨"Balanced Approach", "Public Interest", "neutral", 0.65, 0.60⟩)

/-- Per-scenario weights of `calculate_ethical_alignment`
(`scenario_weights`, lines 866-874). -/
structure ScenarioWeights where
  oecd : ℚ
  privacy : ℚ
deriving DecidableEq

def scenario_weights : List (String × ScenarioWeights) :=
  [ ("AI Ethics", ⟨0.6, 0.4⟩),
    ("AI Safety", ⟨0.7, 0.3⟩),
    ("Data Privacy", ⟨0.3, 0.7⟩),
    ("Export Controls", ⟨0.5, 0.5⟩),
    ("R&D Investment", ⟨0.8, 0.2⟩) ]

def weights_for (policy_scenario : String) : ScenarioWeights :=
  ((scenario_weights.lookup policy_scenario).getD ⟨0.5, 0.5⟩)

/-- `BachGovernanceAPI.calculate_ethical_alignment` (lines 861-879),
with the float arithmetic modelled exactly (`fl` at every operation,
`pyRound3` for the final `round(·, 3)`). -/
def calculate_ethical_alignment (country_iso3 policy_scenario : String) : ℚ :=
  let oecd := get_oecd_compliance country_iso3
  let privacy := get_privacy_score country_iso3
  let w := weights_for policy_scenario
  let oecd_score := pyDiv (pyAdd (fl oecd.adoption_level) (fl oecd.implementation_score)) 2
  let privacy_score := fl privacy.overall
  pyRound3 (pyAdd (pyMul oecd_score (fl w.oecd)) (pyMul privacy_score (fl w.privacy)))

/-! ## Enhancement 2: convergence prediction
(`BachGovernanceAPI.predict_convergence_timeline`, lines 460-503) -/

/-- The local `ethical_gap` of `predict_convergence_timeline` (line 464):
`abs(ethical_a - ethical_b)` in double arithmetic. -/
def ethical_gap_val (country_a country_b policy : String) : ℚ :=
  |pySub (calculate_ethical_alignment country_a policy)
    (calculate_ethical_alignment country_b policy)|

/-- `consensus_tendency * (1 - debate_intensity * 0.5)` (lines 469-470),
in double arithmetic. -/
def cooperativeness (p : ArgumentationPattern) : ℚ :=
  pyMul (fl p.consensus_tendency) (pySub 1 (pyMul (fl p.debate_intensity) (fl 0.5)))

/-- The local `alpha` of `predict_convergence_timeline` (line 471). -/
def alpha_val (country_a country_b : String) : ℚ :=
  pyDiv (pyAdd (cooperativeness (get_argumentation_pattern country_a))
    (cooperativeness (get_argumentation_pattern country_b))) 2

/-- One entry of the unrolled negotiation trajectory (lines 490-495). -/
structure TrajectoryPoint where
  round : ℕ
  gap : ℚ
  position_a : ℚ
  position_b : ℚ

/-- The trajectory loop (lines 486-495), in exact rational arithmetic
(its values feed only plots; no claim depends on its rounding).
Arguments: remaining iterations, rounds already emitted, current gap. -/
def convergence_trajectory (ethical_a ethical_b gap0 alpha : ℚ) :
    ℕ → ℕ → ℚ → List TrajectoryPoint
  | 0, _, _ => []
  | k+1, r, current_gap =>
    let cg := current_gap * (1 - alpha * 0.3)
    { round := r + 1, gap := roundQ3 cg,
      position_a := roundQ3 (ethical_a + (ethical_b - ethical_a) * (1 - cg / gap0) * 0.5),
      position_b := roundQ3 (ethical_b - (ethical_b - ethical_a) * (1 - cg / gap0) * 0.5) } ::
    convergence_trajectory ethical_a ethical_b gap0 alpha k (r+1) cg

/-- Ties-to-even rounding to an integer over the reals (Python `round`
idealised over ℝ for quantities produced by `exp`/`log`). -/
noncomputable def roundTER (y : ℝ) : ℤ :=
  let n := ⌊y⌋
  let f := y - (n : ℝ)
  if f < 1/2 then n
  else if 1/2 < f then n + 1
  else if n % 2 = 0 then n else n + 1

/-- `round(x, 3)` over ℝ. -/
noncomputable def roundR3 (y : ℝ) : ℝ := (roundTER (y * 1000) : ℝ) / 1000

/-- Result dictionary of `predict_convergence_timeline` (lines 497-503). -/
structure ConvergenceResult where
  expected_rounds : ℤ
  probability_success : ℝ
  initial_gap : ℚ
  convergence_rate : ℚ
  trajectory : List TrajectoryPoint

/-- The `rounds` computed in the logarithmic branch (lines 482-483):
`ceil(log(threshold / max(gap, 0.01)) / log(1 - alpha*0.3))`, clamped by
`min(rounds, 20)`; `log` is idealised as the exact real logarithm. -/
noncomputable def log_rounds (country_a country_b policy : String) : ℤ :=
  min ⌈Real.log ((fl 0.1 : ℝ) / max (ethical_gap_val country_a country_b policy : ℝ) (fl 0.01 : ℝ)) /
        Real.log (1 - (alpha_val country_a country_b : ℝ) * 0.3)⌉ 20

/-- `BachGovernanceAPI.predict_convergence_timeline` (lines 460-503).

The threshold comparisons (`ethical_gap < 0.1`, `alpha < 0.3`) happen in
double arithmetic and are modelled exactly through `fl`; the
logarithm/exponential branch is idealised over ℝ.  The trajectory loop
`for r in range(min(rounds, 15))` always executes at least one
iteration and evaluates `current_gap / ethical_gap`, so when the gap is
zero CPython raises `ZeroDivisionError` and the function never returns:
that is the `.error` case. -/
noncomputable def predict_convergence_timeline (country_a country_b policy : String) :
    Except String ConvergenceResult :=
  if ethical_gap_val country_a country_b policy = 0 then
    .error "ZeroDivisionError: float division by zero"
  else if ethical_gap_val country_a country_b policy < fl 0.1 then
    .ok { expected_rounds := 1, probability_success := roundR3 0.95,
          initial_gap := pyRound3 (ethical_gap_val country_a country_b policy),
          convergence_rate := pyRound3 (alpha_val country_a country_b),
          trajectory := convergence_trajectory
            (calculate_ethical_alignment country_a policy)
            (calculate_ethical_alignment country_b policy)
            (ethical_gap_val country_a country_b policy)
            (alpha_val country_a country_b)
            (min (1:ℤ) 15).toNat 0 (ethical_gap_val country_a country_b policy) }
  else if alpha_val country_a country_b < fl 0.3 then
    .ok { expected_rounds := 99, probability_success := roundR3 0.15,
          initial_gap := pyRound3 (ethical_gap_val country_a country_b policy),
          convergence_rate := pyRound3 (alpha_val country_a country_b),
          trajectory := convergence_trajectory
            (calculate_ethical_alignment country_a policy)
            (calculate_ethical_alignment country_b policy)
            (ethical_gap_val country_a country_b policy)
            (alpha_val country_a country_b)
            (min (99:ℤ) 15).toNat 0 (ethical_gap_val country_a country_b policy) }
  else
    .ok { expected_rounds := log_rounds country_a country_b policy,
          probability_success := roundR3 (1 - Real.exp
            (-(alpha_val country_a country_b : ℝ) *
              (log_rounds country_a country_b policy : ℝ) * 0.15)),
          initial_gap := pyRound3 (ethical_gap_val country_a country_b policy),
          convergence_rate := pyRound3 (alpha_val country_a country_b),
          trajectory := convergence_trajectory
            (calculate_ethical_alignment country_a policy)
            (calculate_ethical_alignment country_b policy)
            (ethical_gap_val country_a country_b policy)
            (alpha_val country_a country_b)
            (min (log_rounds country_a country_b policy) 15).toNat 0
            (ethical_gap_val country_a country_b policy) }

/-! ## Enhancement 4: multi-objective Pareto optimisation
(`BachGovernanceAPI.compute_pareto_scenarios`, lines 574-623) -/

/-- One scenario dictionary of `compute_pareto_scenarios` (lines 591-598).
The derived metrics are embedded in exact rational arithmetic (the claim
about them concerns the dominance structure, not rounding). -/
structure ParetoScenario where
  policy : String
  ethical_alignment : ℚ
  privacy_protection : ℚ
  speed_to_agreement : ℚ
  innovation_potential : ℚ
  composite_score : ℚ
deriving DecidableEq

/-- Scenario construction (lines 578-598). -/
def mk_pareto_scenario (country_a country_b policy : String) : ParetoScenario :=
  let ethical_a := calculate_ethical_alignment country_a policy
  let ethical_b := calculate_ethical_alignment country_b policy
  let privacy_a := (get_privacy_score country_a).overall
  let privacy_b := (get_privacy_score country_b).overall
  let pattern_a := get_argumentation_pattern country_a
  let pattern_b := get_argumentation_pattern country_b
  let avg_ethical := (ethical_a + ethical_b) / 2
  let avg_privacy := (privacy_a + privacy_b) / 2
  let speed := (pattern_a.consensus_tendency + pattern_b.consensus_tendency) / 2
  let innovation := 1 - |ethical_a - ethical_b|
  { policy := policy,
    ethical_alignment := roundQ3 avg_ethical,
    privacy_protection := roundQ3 avg_privacy,
    speed_to_agreement := roundQ3 speed,
    innovation_potential := roundQ3 innovation,
    composite_score := roundQ3 ((avg_ethical + avg_privacy + speed + innovation) / 4) }

/-- `s2` dominates `s1`: at least as good on all four derived metrics and
strictly better on at least one (the inner condition of lines 605-612). -/
def Dominates (s2 s1 : ParetoScenario) : Prop :=
  s1.ethical_alignment ≤ s2.ethical_alignment ∧
  s1.privacy_protection ≤ s2.privacy_protection ∧
  s1.speed_to_agreement ≤ s2.speed_to_agreement ∧
  s1.innovation_potential ≤ s2.innovation_potential ∧
  (s1.ethical_alignment < s2.ethical_alignment ∨
   s1.privacy_protection < s2.privacy_protection ∨
   s1.speed_to_agreement < s2.speed_to_agreement ∨
   s1.innovation_potential < s2.innovation_potential)

instance (s2 s1 : ParetoScenario) : Decidable (Dominates s2 s1) := by
  unfold Dominates; infer_instance

/-- Python `max(l, key=lambda x: x.composite_score)`: first element of
maximal composite score (`max` keeps the earlier element on ties). -/
def argmax_composite (l : List ParetoScenario) : Option ParetoScenario :=
  l.foldl (fun acc s =>
    match acc with
    | none => some s
    | some m => if m.composite_score < s.composite_score then some s else some m) none

/-- Result dictionary of `compute_pareto_scenarios` (lines 618-623).
`recommendation` is `none` exactly when Python would raise
(`scenarios[0]` on an empty `policy_options`). -/
structure ParetoResult where
  all_scenarios : List ParetoScenario
  pareto_optimal : List ParetoScenario
  num_pareto : ℕ
  recommendation : Option ParetoScenario

/-- `BachGovernanceAPI.compute_pareto_scenarios` (lines 574-623).  The
inner `for s2 ... break` loop keeps `s1` exactly when no `s2` in the
scenario list dominates it, i.e. it is `List.filter` with the negated
`any`. -/
def compute_pareto_scenarios (country_a country_b : String)
    (policy_options : List String) : ParetoResult :=
  let scenarios := policy_options.map (mk_pareto_scenario country_a country_b)
  let pareto_optimal := scenarios.filter
    (fun s1 => !scenarios.any (fun s2 => decide (Dominates s2 s1)))
  { all_scenarios := scenarios,
    pareto_optimal := pareto_optimal,
    num_pareto := pareto_optimal.length,
    recommendation :=
      match pareto_optimal with
      | [] => scenarios.head?
      | _ => argmax_composite pareto_optimal }

/-! ## Enhancement 5: network diffusion simulation
(`BachGovernanceAPI.simulate_policy_diffusion`, lines 629-671),
embedded in exact rational arithmetic: every state component is clipped
into `[0,1]`, so the claimed invariant is insensitive to rounding. -/

/-- `list(self.oecd_adoption.keys())` (line 631), in dictionary order. -/
def diffusion_countries : Fin 7 → String :=
  !["USA", "GBR", "CHN", "JPN", "IND", "BRA", "ARE"]

/-- `self.influence_network` (lines 380-388): edge weight, `0` when the
pair is absent (exactly the zero entries of the matrix built in lines
635-642). -/
def influence_network (src tgt : String) : ℚ :=
  if src = "USA" then
    if tgt = "GBR" then 0.8 else if tgt = "JPN" then 0.7
    else if tgt = "IND" then 0.5 else if tgt = "BRA" then 0.4 else 0
  else if src = "GBR" then
    if tgt = "USA" then 0.6 else if tgt = "JPN" then 0.5 else if tgt = "IND" then 0.6
    else if tgt = "BRA" then 0.5 else if tgt = "ARE" then 0.4 else 0
  else if src = "CHN" then
    if tgt = "JPN" then 0.3 else if tgt = "IND" then 0.4
    else if tgt = "BRA" then 0.5 else if tgt = "ARE" then 0.6 else 0
  else if src = "JPN" then
    if tgt = "USA" then 0.4 else if tgt = "GBR" then 0.3 else if tgt = "IND" then 0.4 else 0
  else if src = "IND" then
    if tgt = "USA" then 0.3 else if tgt = "GBR" then 0.4 else if tgt = "JPN" then 0.3
    else if tgt = "BRA" then 0.5 else if tgt = "ARE" then 0.4 else 0
  else if src = "BRA" then
    if tgt = "USA" then 0.3 else if tgt = "IND" then 0.4 else if tgt = "ARE" then 0.5 else 0
  else if src = "ARE" then
    if tgt = "CHN" then 0.4 else if tgt = "IND" then 0.3 else if tgt = "BRA" then 0.3 else 0
  else 0

/-- The raw influence matrix `W` before normalisation (lines 635-642). -/
def W_raw (i j : Fin 7) : ℚ :=
  influence_network (diffusion_countries i) (diffusion_countries j)

/-- Row sums, with `row_sums[row_sums == 0] = 1` (lines 645-646). -/
def W_row_sum (i : Fin 7) : ℚ :=
  let s := ∑ j, W_raw i j
  if s = 0 then 1 else s

/-- The row-normalised influence matrix (line 647). -/
def W_mat (i j : Fin 7) : ℚ := W_raw i j / W_row_sum i

/-- `np.clip(x, 0, 1)` componentwise. -/
def clip01 (q : ℚ) : ℚ := max 0 (min 1 q)

/-- One diffusion round (lines 651-656):
`x_new = clip((1 - s) * x + s * (W @ x), 0, 1)`. -/
def diffusion_step (influence_strength : ℚ) (x : Fin 7 → ℚ) : Fin 7 → ℚ :=
  fun i => clip01 ((1 - influence_strength) * x i +
    influence_strength * ∑ j, W_mat i j * x j)

/-- Initial adoption state (line 632). -/
def initial_adoption_state (initial_adopters : List String) : Fin 7 → ℚ :=
  fun i => if diffusion_countries i ∈ initial_adopters then 1 else 0

/-- The tail of the trajectory list (states after each of the remaining
rounds). -/
def diffusion_states (influence_strength : ℚ) : ℕ → (Fin 7 → ℚ) → List (Fin 7 → ℚ)
  | 0, _ => []
  | n+1, x =>
    let x' := diffusion_step influence_strength x
    x' :: diffusion_states influence_strength n x'

/-- Result dictionary of `simulate_policy_diffusion` (lines 666-671). -/
structure DiffusionResult where
  trajectory : List (Fin 7 → ℚ)
  tipping_rounds : Fin 7 → Option ℕ
  final_adoption : Fin 7 → ℚ
  cascade_probability : ℚ

/-- `BachGovernanceAPI.simulate_policy_diffusion` (lines 629-671).  The
`policy` argument is unused in the source as well. -/
def simulate_policy_diffusion (initial_adopters : List String) (policy : String)
    (rounds : ℕ := 10) (influence_strength : ℚ := 0.3) : DiffusionResult :=
  let x0 := initial_adoption_state initial_adopters
  let trajectory := x0 :: diffusion_states influence_strength rounds x0
  let last := (diffusion_step influence_strength)^[rounds] x0
  { trajectory := trajectory,
    tipping_rounds := fun i =>
      if diffusion_countries i ∈ initial_adopters then none
      else trajectory.findIdx? (fun st => decide ((1:ℚ)/2 < st i)),
    final_adoption := fun i => roundQ3 (last i),
    cascade_probability :=
      ((Finset.univ.filter (fun i => (7:ℚ)/10 < last i)).card : ℚ) / 7 }

/-! ## Enhancement 8: Kalman filter tracking
(`BachGovernanceAPI.initialize_kalman_filter` / `kalman_update`,
lines 756-794), embedded in exact rational arithmetic. -/

/-- The `current_gwc` computed by `diagnose_capability_gap` (lines
515-517, returned rounded at line 523/563) and consumed by
`initialize_kalman_filter`. -/
def current_gwc (country_iso3 : String) : ℚ :=
  roundQ3 ((get_oecd_compliance country_iso3).implementation_score * 0.4 +
    (get_privacy_score country_iso3).overall * 0.3 +
    (get_argumentation_pattern country_iso3).consensus_tendency * 0.3)

/-- One entry of `self.kalman_states` (lines 759-765). -/
structure KalmanState where
  x_hat : ℚ
  P : ℚ
  Q : ℚ
  R : ℚ
  history : List (ℕ × ℚ × ℚ)

/-- `BachGovernanceAPI.initialize_kalman_filter` (lines 756-765). -/
def initialize_kalman_filter (country_iso3 : String) : KalmanState :=
  { x_hat := current_gwc country_iso3, P := 0.1, Q := 0.01, R := 0.05,
    history := [(0, current_gwc country_iso3, 0.1)] }

/-- Report dictionary of `kalman_update` (lines 790-794). -/
structure KalmanUpdateResult where
  smoothed_estimate : ℚ
  uncertainty : ℚ
  confidence : ℚ

/-- `BachGovernanceAPI.kalman_update` (lines 767-794): returns the
mutated state together with the report dictionary. -/
def kalman_update (state : KalmanState) (new_measurement : ℚ)
    (intervention_effect : ℚ := 0) : KalmanState × KalmanUpdateResult :=
  let A : ℚ := 1
  let B : ℚ := 0.1
  let x_pred := A * state.x_hat + B * intervention_effect
  let P_pred := A * state.P * A + state.Q
  let C : ℚ := 1
  let K := P_pred * C / (C * P_pred * C + state.R)
  let x_hat_new := x_pred + K * (new_measurement - C * x_pred)
  let P_new := (1 - K * C) * P_pred
  ({ state with
      x_hat := x_hat_new,
      P := P_new,
      history := state.history ++ [(state.history.length, x_hat_new, P_new)] },
   { smoothed_estimate := roundQ3 x_hat_new,
     uncertainty := roundQ3 P_new,
     confidence := roundQ1 ((1 - P_new) * 100) })

/-- The sequence of filter states visited while applying a list of
`(new_measurement, intervention_effect)` updates, initial state
included. -/
def kalman_state_chain (state : KalmanState) (updates : List (ℚ × ℚ)) :
    List KalmanState :=
  updates.scanl (fun st mu => (kalman_update st mu.1 mu.2).1) state

/-! ## Enhancement 6: historical pattern matching
(`BachGovernanceAPI.match_historical_scenarios`, lines 677-703, and the
`historical_scenarios` table, lines 391-427).  Cosine similarity needs
square roots, so this part lives over ℝ. -/

/-- One entry of `self.historical_scenarios` (lines 391-427). -/
structure HistoricalScenario where
  name : String
  actors : List String
  power_asymmetry : ℚ
  issue_salience : ℚ
  time_pressure : ℚ
  outcome : String
  success_rate : ℚ
  key_lesson : String
  features : Fin 4 → ℚ

/-- `self.historical_scenarios` (lines 391-427), in dictionary order. -/
def historical_scenarios : List HistoricalScenario :=
  [ { name := "Montreal Protocol 1987", actors := ["USA", "GBR", "CHN", "IND"],
      power_asymmetry := 0.6, issue_salience := 0.9, time_pressure := 0.7,
      outcome := "success", success_rate := 0.96,
      key_lesson := "Phased implementation with technology transfer",
      features := ![0.6, 0.9, 0.7, 0.8] },
    { name := "SALT Treaties 1972", actors := ["USA", "CHN"],
      power_asymmetry := 0.5, issue_salience := 0.95, time_pressure := 0.8,
      outcome := "partial_success", success_rate := 0.68,
      key_lesson := "Verification mechanisms critical for trust",
      features := ![0.5, 0.95, 0.8, 0.7] },
    { name := "Paris Climate Agreement 2015", actors := ["USA", "GBR", "CHN", "IND", "BRA"],
      power_asymmetry := 0.7, issue_salience := 0.85, time_pressure := 0.6,
      outcome := "success", success_rate := 0.82,
      key_lesson := "Nationally determined contributions enabled consensus",
      features := ![0.7, 0.85, 0.6, 0.75] },
    { name := "Nuclear Non-Proliferation Treaty 1968", actors := ["USA", "CHN", "GBR", "JPN"],
      power_asymmetry := 0.8, issue_salience := 0.95, time_pressure := 0.85,
      outcome := "success", success_rate := 0.88,
      key_lesson := "Security guarantees essential for non-nuclear states",
      features := ![0.8, 0.95, 0.85, 0.87] },
    { name := "Kyoto Protocol 1997", actors := ["USA", "GBR", "JPN", "CHN", "IND"],
      power_asymmetry := 0.65, issue_salience := 0.80, time_pressure := 0.70,
      outcome := "partial_success", success_rate := 0.58,
      key_lesson := "Binding targets without major emitters led to limited impact",
      features := ![0.65, 0.80, 0.70, 0.68] } ]

/-- The query feature vector `current_features` (lines 679-684). -/
def current_features (power_asymmetry issue_salience time_pressure : ℚ) : Fin 4 → ℚ :=
  ![power_asymmetry, issue_salience, time_pressure,
    (power_asymmetry + issue_salience) / 2]

/-- `sklearn.metrics.pairwise.cosine_similarity` on two 4-vectors.
sklearn normalises each row and maps zero-norm rows to zero rows, so a
zero vector yields similarity `0`; Lean's `x / 0 = 0` convention gives
exactly that value here. -/
noncomputable def cosine_similarity (v w : Fin 4 → ℚ) : ℝ :=
  (∑ i, (v i : ℝ) * (w i : ℝ)) /
    (Real.sqrt (∑ i, (v i : ℝ) ^ 2) * Real.sqrt (∑ i, (w i : ℝ) ^ 2))

/-- The Jaccard-style `actor_overlap` (line 689):
`len(set(cur) & set(hist)) / len(set(cur) | set(hist))`. -/
def actor_overlap (current_actors hist_actors : List String) : ℚ :=
  ((current_actors.toFinset ∩ hist_actors.toFinset).card : ℚ) /
    ((current_actors.toFinset ∪ hist_actors.toFinset).card : ℚ)

/-- One match dictionary (lines 692-700). -/
structure ScenarioMatch where
  scenario : String
  similarity : ℝ
  relevance : ℝ
  outcome : String
  success_rate : ℚ
  key_lesson : String
  actors : List String

/-- Construction of one match entry (lines 688-700): the stored
`relevance` is `round(similarity * 0.7 + actor_overlap * 0.3, 3)`,
computed from the unrounded similarity. -/
noncomputable def mk_scenario_match (current_actors : List String)
    (power_asymmetry issue_salience time_pressure : ℚ)
    (h : HistoricalScenario) : ScenarioMatch :=
  let similarity := cosine_similarity
    (current_features power_asymmetry issue_salience time_pressure) h.features
  let overlap := actor_overlap current_actors h.actors
  { scenario := h.name,
    similarity := roundR3 similarity,
    relevance := roundR3 (similarity * 0.7 + (overlap : ℝ) * 0.3),
    outcome := h.outcome,
    success_rate := h.success_rate,
    key_lesson := h.key_lesson,
    actors := h.actors }

/-- `BachGovernanceAPI.match_historical_scenarios` (lines 677-703):
build the five match entries, then
`matches.sort(key=lambda x: x["relevance"], reverse=True)`. -/
noncomputable def match_historical_scenarios (current_actors : List String)
    (power_asymmetry issue_salience time_pressure : ℚ) : List ScenarioMatch :=
  (historical_scenarios.map
    (mk_scenario_match current_actors power_asymmetry issue_salience time_pressure)).mergeSort
    (fun x y => decide (y.relevance ≤ x.relevance))

/-! ## Data ingress (`DataIngress`, lines 16-332) -/

/-- Outcome of one attempt of the retry loop of `fetch_with_retry`
(lines 134-157): HTTP 200 with a JSON payload, HTTP 429, another HTTP
status, a timeout, or another request exception. -/
inductive AttemptOutcome (α : Type) where
  | success (payload : α)
  | rateLimited
  | httpError (code : ℕ)
  | timeout
  | requestException
deriving DecidableEq

/-- Whether the attempt returned HTTP 200. -/
def AttemptOutcome.isSuccess {α : Type} : AttemptOutcome α → Bool
  | .success _ => true
  | _ => false

/-- `DataIngress.fetch_with_retry` (lines 129-159): up to `max_retries`
attempts (given here as the list of their outcomes); the first HTTP 200
returns its payload, everything else only sleeps and retries, and after
the ceiling the function returns `None`. -/
def fetch_with_retry {α : Type} (outcomes : List (AttemptOutcome α))
    (max_retries : ℕ := 3) : Option α :=
  (outcomes.take max_retries).findSome? (fun o =>
    match o with
    | .success p => some p
    | _ => none)

/-- Fields read from json payloads by `fetch_oecd_data`
(`data.get('version', '2.0')`, `data.get('signatories', 42)`). -/
structure OecdJson where
  version : Option String
  signatories : Option ℤ

/-- `api_metadata` of `fetch_oecd_data` (lines 180-185 / 196-202).
The wall-clock `last_updated` timestamp is not representable in a pure
model and is omitted. -/
structure OecdMetadata where
  source : String
  version : String
  signatories : ℤ
  data_status : Option String
deriving DecidableEq

/-- Return value of `fetch_oecd_data`. -/
structure OecdData where
  principles : List OecdPrinciple
  api_metadata : OecdMetadata
deriving DecidableEq

/-- `DataIngress.fetch_oecd_data` (lines 161-206).  Inputs: the
`force_refresh` flag, the cache entry and its age in hours (lines
165-169), and the result of `fetch_with_retry`.  Note both branches
install the static principles table; a truthy payload only changes the
metadata.  (`if data:` is modelled as `isSome`; the empty-payload edge
of Python truthiness is not exercised by any claim.) -/
def fetch_oecd_data (force_refresh : Bool) (cache : Option OecdData)
    (cache_age_hours : ℚ) (fetched : Option OecdJson) : OecdData :=
  let live : OecdData :=
    match fetched with
    | some data =>
      { principles := oecd_principles_static,
        api_metadata :=
          { source := "OECD.AI Policy Observatory",
            version := data.version.getD "2.0",
            signatories := data.signatories.getD 42,
            data_status := none } }
    | none =>
      { principles := oecd_principles_static,
        api_metadata :=
          { source := "OECD.AI Policy Observatory (Fallback Data)",
            version := "2.0",
            signatories := 42,
            data_status := some "static_fallback" } }
  match force_refresh, cache with
  | false, some c => if cache_age_hours < 24 then c else live
  | _, _ => live

/-- `api_metadata` of `fetch_privacy_international_data` (lines 226-232 /
242-249). -/
structure PrivacyMetadata where
  source : String
  methodology : String
  countries_covered : ℕ
  data_status : Option String
deriving DecidableEq

/-- Return value of `fetch_privacy_international_data`. -/
structure PrivacyData where
  scores : List (String × PrivacyScore)
  api_metadata : PrivacyMetadata
deriving DecidableEq

/-- `DataIngress.fetch_privacy_international_data` (lines 208-253); the
payload carries no fields that are read, so it is `Unit`. -/
def fetch_privacy_international_data (force_refresh : Bool)
    (cache : Option PrivacyData) (cache_age_hours : ℚ)
    (fetched : Option Unit) : PrivacyData :=
  let live : PrivacyData :=
    match fetched with
    | some _ =>
      { scores := privacy_scores_static,
        api_metadata :=
          { source := "Privacy International",
            methodology := "State of Privacy Index 2023",
            countries_covered := privacy_scores_static.length,
            data_status := none } }
    | none =>
      { scores := privacy_scores_static,
        api_metadata :=
          { source := "Privacy International (Fallback Data)",
            methodology := "State of Privacy Index 2023",
            countries_covered := privacy_scores_static.length,
            data_status := some "static_fallback" } }
  match force_refresh, cache with
  | false, some c => if cache_age_hours < 168 then c else live
  | _, _ => live

/-- `api_metadata` of `fetch_parlamint_data` (lines 274-280 / 291-298). -/
structure ParlamintMetadata where
  source : String
  corpus_version : String
  parliaments_covered : ℕ
  time_period : String
  data_status : Option String
deriving DecidableEq

/-- Return value of `fetch_parlamint_data`. -/
structure ParlamintData where
  patterns : List (String × ArgumentationPattern)
  api_metadata : ParlamintMetadata
deriving DecidableEq

/-- `DataIngress.fetch_parlamint_data` (lines 255-302). -/
def fetch_parlamint_data (force_refresh : Bool)
    (cache : Option ParlamintData) (cache_age_hours : ℚ)
    (fetched : Option Unit) : ParlamintData :=
  let live : ParlamintData :=
    match fetched with
    | some _ =>
      { patterns := argumentation_patterns_static,
        api_metadata :=
          { source := "ParlaMint 4.0 Corpus",
            corpus_version := "4.0",
            parliaments_covered := 29,
            time_period := "2015-2024",
            data_status := none } }
    | none =>
      { patterns := argumentation_patterns_static,
        api_metadata :=
          { source := "ParlaMint 4.0 Corpus (Fallback Data)",
            corpus_version := "4.0",
            parliaments_covered := 29,
            time_period := "2015-2024",
            data_status := some "static_fallback" } }
  match force_refresh, cache with
  | false, some c => if cache_age_hours < 168 then c else live
  | _, _ => live

/-! ## Session-state login gates

One Streamlit script run, as a function of the session flag
`st.session_state["authenticated"]` at entry and of the widget inputs of
this run.  `authenticated` is the flag at the end of the run,
`content_rendered` records whether the gated page body below the gate
executed during this run (`st.stop()`, `st.rerun()` and
`st.switch_page` all abort the current run). -/
structure GateOutcome where
  authenticated : Bool
  content_rendered : Bool
deriving DecidableEq

/-- `app.py`, lines 46-83: the login form.  On submit with the correct
password the flag is set and the script reruns; on a wrong password the
script stops; when the flag is already set the script switches to the
gated suite (`pages/simulation.py`), which here counts as rendering the
gated content.  The entered username is stored but never checked. -/
def app_login_step (auth : Bool) (submitted : Bool) (username password : String) :
    GateOutcome :=
  if auth = false then
    if submitted then
      if password = "charlie2025" then
        { authenticated := true, content_rendered := false }
      else
        { authenticated := false, content_rendered := false }
    else
      { authenticated := false, content_rendered := false }
  else
    { authenticated := true, content_rendered := true }

/-- The inline password gate of `pages/visual_3d.py` (lines 10-22),
`pages/cognitive_decision_science.py` (lines 11-22), `cognitive_demo.py`
(lines 18-29) and `institutional_behavior.py` (lines 15-27): when the
flag is unset, a password box and Login button render and the run stops
(`st.stop()`), setting the flag first when the button was clicked with
the correct password; otherwise the page body renders. -/
def inline_gate_step (auth : Bool) (login_clicked : Bool) (password : String) :
    GateOutcome :=
  if auth = false then
    { authenticated := login_clicked && decide (password = "charlie2025"),
      content_rendered := false }
  else
    { authenticated := true, content_rendered := true }

/-- The redirect gate of `pages/simulation.py` (lines 153-155) and
`simulation.py` (lines 13-15): when the flag is unset the script warns
and switches back to `app.py` (aborting this run); no input on this
page can set the flag. -/
def redirect_gate_step (auth : Bool) : GateOutcome :=
  if auth = false then
    { authenticated := false, content_rendered := false }
  else
    { authenticated := true, content_rendered := true }

/-! ## Helper lemmas -/

/-- Representatives of the country-profile classes: the seven known ISO
codes plus one representative unknown code (every other string maps to
the same default profiles). -/
def country_reps : List String :=
  ["USA", "GBR", "CHN", "JPN", "IND", "BRA", "ARE", "ZZZ"]

/-- Representatives of the policy-weight classes: the five known
scenarios plus one representative unknown scenario. -/
def policy_reps : List String :=
  ["AI Ethics", "AI Safety", "Data Privacy", "Export Controls",
   "R&D Investment", "ZZZ"]

/-- Every country-code string carries the same three profiles as one of
the eight representatives. -/
theorem country_profile_cases (s : String) :
    ∃ t, t ∈ country_reps ∧
      get_oecd_compliance s = get_oecd_compliance t ∧
      get_privacy_score s = get_privacy_score t ∧
      get_argumentation_pattern s = get_argumentation_pattern t := by
  by_cases h1 : s = "USA"
  · exact ⟨"USA", by decide, by rw [h1], by rw [h1], by rw [h1]⟩
  by_cases h2 : s = "GBR"
  · exact ⟨"GBR", by decide, by rw [h2], by rw [h2], by rw [h2]⟩
  by_cases h3 : s = "CHN"
  · exact ⟨"CHN", by decide, by rw [h3], by rw [h3], by rw [h3]⟩
  by_cases h4 : s = "JPN"
  · exact ⟨"JPN", by decide, by rw [h4], by rw [h4], by rw [h4]⟩
  by_cases h5 : s = "IND"
  · exact ⟨"IND", by decide, by rw [h5], by rw [h5], by rw [h5]⟩
  by_cases h6 : s = "BRA"
  · exact ⟨"BRA", by decide, by rw [h6], by rw [h6], by rw [h6]⟩
  by_cases h7 : s = "ARE"
  · exact ⟨"ARE", by decide, by rw [h7], by rw [h7], by rw [h7]⟩
  refine ⟨"ZZZ", by decide, ?_, ?_, ?_⟩ <;>
    simp [get_oecd_compliance, get_privacy_score, get_argumentation_pattern,
      oecd_adoption, privacy_scores_static, argumentation_patterns_static,
      List.lookup,
      show (s == "USA") = false from beq_eq_false_iff_ne.mpr h1,
      show (s == "GBR") = false from beq_eq_false_iff_ne.mpr h2,
      show (s == "CHN") = false from beq_eq_false_iff_ne.mpr h3,
      show (s == "JPN") = false from beq_eq_false_iff_ne.mpr h4,
      show (s == "IND") = false from beq_eq_false_iff_ne.mpr h5,
      show (s == "BRA") = false from beq_eq_false_iff_ne.mpr h6,
      show (s == "ARE") = false from beq_eq_false_iff_ne.mpr h7]

/-- Every policy-scenario string carries the same weights as one of the
six representatives. -/
theorem policy_weight_cases (p : String) :
    ∃ q, q ∈ policy_reps ∧ weights_for p = weights_for q := by
  by_cases h1 : p = "AI Ethics"
  · exact ⟨"AI Ethics", by decide, by rw [h1]⟩
  by_cases h2 : p = "AI Safety"
  · exact ⟨"AI Safety", by decide, by rw [h2]⟩
  by_cases h3 : p = "Data Privacy"
  · exact ⟨"Data Privacy", by decide, by rw [h3]⟩
  by_cases h4 : p = "Export Controls"
  · exact ⟨"Export Controls", by decide, by rw [h4]⟩
  by_cases h5 : p = "R&D Investment"
  · exact ⟨"R&D Investment", by decide, by rw [h5]⟩
  refine ⟨"ZZZ", by decide, ?_⟩
  simp [weights_for, scenario_weights, List.lookup,
    show (p == "AI Ethics") = false from beq_eq_false_iff_ne.mpr h1,
    show (p == "AI Safety") = false from beq_eq_false_iff_ne.mpr h2,
    show (p == "Data Privacy") = false from beq_eq_false_iff_ne.mpr h3,
    show (p == "Export Controls") = false from beq_eq_false_iff_ne.mpr h4,
    show (p == "R&D Investment") = false from beq_eq_false_iff_ne.mpr h5]

theorem calculate_ethical_alignment_congr {a a' p p' : String}
    (h1 : get_oecd_compliance a = get_oecd_compliance a')
    (h2 : get_privacy_score a = get_privacy_score a')
    (h3 : weights_for p = weights_for p') :
    calculate_ethical_alignment a p = calculate_ethical_alignment a' p' := by
  unfold calculate_ethical_alignment
  rw [h1, h2, h3]

theorem ethical_gap_val_congr {a a' b b' p p' : String}
    (ha : calculate_ethical_alignment a p = calculate_ethical_alignment a' p')
    (hb : calculate_ethical_alignment b p = calculate_ethical_alignment b' p') :
    ethical_gap_val a b p = ethical_gap_val a' b' p' := by
  unfold ethical_gap_val
  rw [ha, hb]

theorem alpha_val_congr {a a' b b' : String}
    (ha : get_argumentation_pattern a = get_argumentation_pattern a')
    (hb : get_argumentation_pattern b = get_argumentation_pattern b') :
    alpha_val a b = alpha_val a' b' := by
  unfold alpha_val
  rw [ha, hb]

/-- Exhaustive check over the representatives: the combined
cooperativeness `alpha` never falls below the float literal `0.3`
(hence the 99-round branch of the estimator is dead code for every pair
of country codes), and it lies strictly between 0 and 1. -/
theorem alpha_val_facts :
    ∀ a ∈ country_reps, ∀ b ∈ country_reps,
      ¬(alpha_val a b < fl 0.3) ∧ 0 < alpha_val a b ∧ alpha_val a b < 1 := by
  decide

/-- Exhaustive check over the representatives: the double-arithmetic
alignment gap never equals the float literal `0.1` (the threshold), and
it is zero exactly when the two alignment scores coincide. -/
theorem gap_val_facts :
    ∀ a ∈ country_reps, ∀ b ∈ country_reps, ∀ p ∈ policy_reps,
      ethical_gap_val a b p ≠ fl 0.1 ∧
      (calculate_ethical_alignment a p ≠ calculate_ethical_alignment b p →
        ethical_gap_val a b p ≠ 0) := by
  decide

/-- Exhaustive check over the representatives: alignment scores lie in
`[0, 1]`. -/
theorem alignment_bounds_reps :
    ∀ c ∈ country_reps, ∀ p ∈ policy_reps,
      0 ≤ calculate_ethical_alignment c p ∧ calculate_ethical_alignment c p ≤ 1 := by
  decide

/-- `roundTE` of a nonnegative rational is nonnegative. -/
theorem roundTE_nonneg {q : ℚ} (h : 0 ≤ q) : 0 ≤ roundTE q := by
  have hf : (0:ℤ) ≤ ⌊q⌋ := Int.floor_nonneg.mpr h
  unfold roundTE
  dsimp only
  split_ifs <;> omega

/-- `roundTE q ≤ c` whenever `q ≤ c` for an integer bound `c`. -/
theorem roundTE_le {q : ℚ} {c : ℤ} (h : q ≤ (c:ℚ)) : roundTE q ≤ c := by
  have hfc : ⌊q⌋ ≤ c := by
    have := Int.floor_le_floor h
    simpa using this
  have hq : (⌊q⌋ : ℚ) ≤ q := Int.floor_le q
  have hup : ¬(q - (⌊q⌋:ℚ) < 1/2) → ⌊q⌋ + 1 ≤ c := by
    intro hhalf
    have h1 : (⌊q⌋:ℚ) + 1/2 ≤ q := by
      have := not_lt.mp hhalf
      linarith
    have h2 : (⌊q⌋:ℚ) < (c:ℚ) := by linarith
    have h3 : ⌊q⌋ < c := by exact_mod_cast h2
    omega
  unfold roundTE
  dsimp only
  split_ifs with hlt hgt hev
  · exact hfc
  · exact hup hlt
  · exact hfc
  · exact hup hlt

/-- `roundTER` of a nonnegative real is nonnegative. -/
theorem roundTER_nonneg {y : ℝ} (h : 0 ≤ y) : 0 ≤ roundTER y := by
  have hf : (0:ℤ) ≤ ⌊y⌋ := Int.floor_nonneg.mpr h
  unfold roundTER
  dsimp only
  split_ifs <;> omega

/-- `roundTER y ≤ c` whenever `y ≤ c` for an integer bound `c`. -/
theorem roundTER_le {y : ℝ} {c : ℤ} (h : y ≤ (c:ℝ)) : roundTER y ≤ c := by
  have hfc : ⌊y⌋ ≤ c := by
    have := Int.floor_le_floor h
    simpa using this
  have hq : (⌊y⌋ : ℝ) ≤ y := Int.floor_le y
  have hup : ¬(y - (⌊y⌋:ℝ) < 1/2) → ⌊y⌋ + 1 ≤ c := by
    intro hhalf
    have h1 : (⌊y⌋:ℝ) + 1/2 ≤ y := by
      have := not_lt.mp hhalf
      linarith
    have h2 : (⌊y⌋:ℝ) < (c:ℝ) := by linarith
    have h3 : ⌊y⌋ < c := by exact_mod_cast h2
    omega
  unfold roundTER
  dsimp only
  split_ifs with hlt hgt hev
  · exact hfc
  · exact hup hlt
  · exact hfc
  · exact hup hlt

/-- `round(x, 3)` over ℝ stays inside `[0, 1]` on `[0, 1]`. -/
theorem roundR3_mem01 {y : ℝ} (h0 : 0 ≤ y) (h1 : y ≤ 1) :
    0 ≤ roundR3 y ∧ roundR3 y ≤ 1 := by
  have hn : 0 ≤ roundTER (y * 1000) := roundTER_nonneg (by linarith)
  have hl : roundTER (y * 1000) ≤ 1000 := roundTER_le (c := 1000) (by push_cast; linarith)
  constructor
  · unfold roundR3
    positivity
  · unfold roundR3
    rw [div_le_one (by norm_num)]
    exact_mod_cast hl

/-- `round(x, 3)` over ℚ stays inside `[0, 1]` on `[0, 1]`. -/
theorem roundQ3_mem01 {q : ℚ} (h0 : 0 ≤ q) (h1 : q ≤ 1) :
    0 ≤ roundQ3 q ∧ roundQ3 q ≤ 1 := by
  have hn : 0 ≤ roundTE (q * 1000) := roundTE_nonneg (by linarith)
  have hl : roundTE (q * 1000) ≤ 1000 := roundTE_le (c := 1000) (by push_cast; linarith)
  constructor
  · unfold roundQ3
    positivity
  · unfold roundQ3
    rw [div_le_one (by norm_num)]
    exact_mod_cast hl

/-- `round(x, 3)` over ℚ of a nonnegative rational is nonnegative. -/
theorem roundQ3_nonneg {q : ℚ} (h0 : 0 ≤ q) : 0 ≤ roundQ3 q := by
  have hn : 0 ≤ roundTE (q * 1000) := roundTE_nonneg (by linarith)
  unfold roundQ3
  positivity

/-! ## Claim theorems -/

/-- C10.  For every country code string — including codes outside the
seven known countries — the lookup helpers `get_oecd_compliance`,
`get_privacy_score` and `get_argumentation_pattern` return the fixed
default profiles instead of failing, and `calculate_ethical_alignment`
returns a score in `[0, 1]` for every country code string and every
policy scenario string (unknown policies use the 0.5/0.5 weights). -/
theorem C10_lookup_defaults_and_alignment_range (s p : String) :
    (s ∉ ["USA", "GBR", "CHN", "JPN", "IND", "BRA", "ARE"] →
      get_oecd_compliance s = ⟨0.50, 0.45, false⟩ ∧
      get_privacy_score s = ⟨0.50, 0.50, 0.50, 0.50, 0.50⟩ ∧
      get_argumentation_pattern s =
        ⟨"Balanced Approach", "Public Interest", "neutral", 0.65, 0.60⟩) ∧
    (p ∉ ["AI Ethics", "AI Safety", "Data Privacy", "Export Controls",
        "R&D Investment"] → weights_for p = ⟨0.5, 0.5⟩) ∧
    0 ≤ calculate_ethical_alignment s p ∧ calculate_ethical_alignment s p ≤ 1 := by
  obtain ⟨t, ht, hO, hP, hA⟩ := country_profile_cases s
  obtain ⟨q, hq, hW⟩ := policy_weight_cases p
  refine ⟨?_, ?_, ?_⟩
  · intro hs
    simp only [List.mem_cons, List.not_mem_nil, or_false] at hs
    push_neg at hs
    obtain ⟨h1, h2, h3, h4, h5, h6, h7⟩ := hs
    refine ⟨?_, ?_, ?_⟩ <;>
      simp [get_oecd_compliance, get_privacy_score, get_argumentation_pattern,
        oecd_adoption, privacy_scores_static, argumentation_patterns_static,
        List.lookup,
        show (s == "USA") = false from beq_eq_false_iff_ne.mpr h1,
        show (s == "GBR") = false from beq_eq_false_iff_ne.mpr h2,
        show (s == "CHN") = false from beq_eq_false_iff_ne.mpr h3,
        show (s == "JPN") = false from beq_eq_false_iff_ne.mpr h4,
        show (s == "IND") = false from beq_eq_false_iff_ne.mpr h5,
        show (s == "BRA") = false from beq_eq_false_iff_ne.mpr h6,
        show (s == "ARE") = false from beq_eq_false_iff_ne.mpr h7]
  · intro hp
    simp only [List.mem_cons, List.not_mem_nil, or_false] at hp
    push_neg at hp
    obtain ⟨h1, h2, h3, h4, h5⟩ := hp
    simp [weights_for, scenario_weights, List.lookup,
      show (p == "AI Ethics") = false from beq_eq_false_iff_ne.mpr h1,
      show (p == "AI Safety") = false from beq_eq_false_iff_ne.mpr h2,
      show (p == "Data Privacy") = false from beq_eq_false_iff_ne.mpr h3,
      show (p == "Export Controls") = false from beq_eq_false_iff_ne.mpr h4,
      show (p == "R&D Investment") = false from beq_eq_false_iff_ne.mpr h5]
  · rw [calculate_ethical_alignment_congr hO hP hW]
    exact alignment_bounds_reps t ht q hq

/-- Witness for C10 at the unknown country code `"XYZ"` and the unknown
policy string `"Trade Policy"`. -/
theorem C10_witness :
    get_oecd_compliance "XYZ" = ⟨0.50, 0.45, false⟩ ∧
    get_privacy_score "XYZ" = ⟨0.50, 0.50, 0.50, 0.50, 0.50⟩ ∧
    get_argumentation_pattern "XYZ" =
      ⟨"Balanced Approach", "Public Interest", "neutral", 0.65, 0.60⟩ ∧
    weights_for "Trade Policy" = ⟨0.5, 0.5⟩ ∧
    0 ≤ calculate_ethical_alignment "XYZ" "Trade Policy" ∧
    calculate_ethical_alignment "XYZ" "Trade Policy" ≤ 1 := by
  have h := C10_lookup_defaults_and_alignment_range "XYZ" "Trade Policy"
  obtain ⟨hd, hw, hb⟩ := h
  obtain ⟨h1, h2, h3⟩ := hd (by decide)
  exact ⟨h1, h2, h3, hw (by decide), hb.1, hb.2⟩

/-- C8.  Each page script renders its gated content only when the session
flag `authenticated` is already set, and a run can set the flag only
when the single hardcoded shared password `"charlie2025"` was submitted
during that run; the decision depends on nothing else (no user registry,
token issuance, or expiry — the session state inspected is the single
boolean flag, and the stored username is never consulted). -/
theorem C8_password_gates (auth submitted clicked : Bool) (username password : String) :
    ((app_login_step auth submitted username password).content_rendered = auth ∧
     (app_login_step auth submitted username password).authenticated =
       (auth || (submitted && decide (password = "charlie2025")))) ∧
    ((inline_gate_step auth clicked password).content_rendered = auth ∧
     (inline_gate_step auth clicked password).authenticated =
       (auth || (clicked && decide (password = "charlie2025")))) ∧
    ((redirect_gate_step auth).content_rendered = auth ∧
     (redirect_gate_step auth).authenticated = auth) := by
  cases auth <;> cases submitted <;> cases clicked <;>
    by_cases h : password = "charlie2025" <;>
      simp [app_login_step, inline_gate_step, redirect_gate_step, h]

/-- C7.  A policy scenario is classified Pareto-optimal exactly when no
other scenario in the enumerated set scores at least as high on all four
derived metrics while scoring strictly higher on at least one. -/
theorem C7_pareto_characterisation (country_a country_b : String)
    (policy_options : List String) (s : ParetoScenario) :
    s ∈ (compute_pareto_scenarios country_a country_b policy_options).pareto_optimal ↔
      s ∈ (compute_pareto_scenarios country_a country_b policy_options).all_scenarios ∧
        ∀ s2 ∈ (compute_pareto_scenarios country_a country_b policy_options).all_scenarios,
          s2 ≠ s → ¬ Dominates s2 s := by
  have hirr : ¬ Dominates s s := by
    rintro ⟨-, -, -, -, h | h | h | h⟩ <;> exact lt_irrefl _ h
  simp only [compute_pareto_scenarios, List.mem_filter, Bool.not_eq_true',
    List.any_eq_false, decide_eq_false_iff_not, decide_eq_true_eq]
  constructor
  · rintro ⟨hmem, hnone⟩
    exact ⟨hmem, fun s2 hs2 _ => hnone s2 hs2⟩
  · rintro ⟨hmem, hnone⟩
    refine ⟨hmem, fun s2 hs2 => ?_⟩
    by_cases heq : s2 = s
    · rw [heq]; exact hirr
    · exact hnone s2 hs2 heq

/-- `fetch_with_retry` returns `None` when no attempt within the retry
ceiling returns HTTP 200. -/
theorem fetch_with_retry_none {α : Type} (outcomes : List (AttemptOutcome α))
    (n : ℕ) (h : ∀ x ∈ outcomes, x.isSuccess = false) :
    fetch_with_retry outcomes n = none := by
  unfold fetch_with_retry
  rw [List.findSome?_eq_none_iff]
  intro x hx
  have := h x (List.take_subset _ _ hx)
  cases x <;> simp_all [AttemptOutcome.isSuccess]

/-- C6.  When every HTTP retry attempt fails (`fetch_with_retry` returns
`None` after its fixed ceiling of 3 attempts) and the cache path is not
taken, each fetch function returns the static fallback tables and its
`api_metadata` carries `data_status = 'static_fallback'`. -/
theorem C6_static_fallback
    (o1 : List (AttemptOutcome OecdJson)) (o2 o3 : List (AttemptOutcome Unit))
    (h1 : ∀ x ∈ o1, x.isSuccess = false)
    (h2 : ∀ x ∈ o2, x.isSuccess = false)
    (h3 : ∀ x ∈ o3, x.isSuccess = false)
    (f1 f2 f3 : Bool)
    (c1 : Option OecdData) (c2 : Option PrivacyData) (c3 : Option ParlamintData)
    (a1 a2 a3 : ℚ)
    (hc1 : f1 = true ∨ c1 = none) (hc2 : f2 = true ∨ c2 = none)
    (hc3 : f3 = true ∨ c3 = none) :
    fetch_with_retry o1 = none ∧
    fetch_with_retry o2 = none ∧
    fetch_with_retry o3 = none ∧
    (fetch_oecd_data f1 c1 a1 (fetch_with_retry o1)).principles =
      oecd_principles_static ∧
    (fetch_oecd_data f1 c1 a1 (fetch_with_retry o1)).api_metadata.data_status =
      some "static_fallback" ∧
    (fetch_privacy_international_data f2 c2 a2 (fetch_with_retry o2)).scores =
      privacy_scores_static ∧
    (fetch_privacy_international_data f2 c2 a2 (fetch_with_retry o2)).api_metadata.data_status =
      some "static_fallback" ∧
    (fetch_parlamint_data f3 c3 a3 (fetch_with_retry o3)).patterns =
      argumentation_patterns_static ∧
    (fetch_parlamint_data f3 c3 a3 (fetch_with_retry o3)).api_metadata.data_status =
      some "static_fallback" := by
  have e1 := fetch_with_retry_none o1 3 h1
  have e2 := fetch_with_retry_none o2 3 h2
  have e3 := fetch_with_retry_none o3 3 h3
  refine ⟨e1, e2, e3, ?_, ?_, ?_, ?_, ?_, ?_⟩ <;>
    first
    | (rw [e1]; rcases hc1 with rfl | rfl
       · cases c1 <;> rfl
       · cases f1 <;> rfl)
    | (rw [e2]; rcases hc2 with rfl | rfl
       · cases c2 <;> rfl
       · cases f2 <;> rfl)
    | (rw [e3]; rcases hc3 with rfl | rfl
       · cases c3 <;> rfl
       · cases f3 <;> rfl)

/-- Witness for C6: three exhausted attempt sequences (timeout, HTTP
500, request exception / rate-limited responses), forced refresh, empty
caches. -/
theorem C6_witness :
    (∀ x ∈ ([.timeout, .httpError 500, .requestException] :
        List (AttemptOutcome OecdJson)), x.isSuccess = false) ∧
    (fetch_oecd_data true none 0 (fetch_with_retry
        ([.timeout, .httpError 500, .requestException] :
          List (AttemptOutcome OecdJson)))).api_metadata.data_status =
      some "static_fallback" ∧
    (fetch_privacy_international_data true none 0 (fetch_with_retry
        ([.rateLimited, .timeout, .timeout] :
          List (AttemptOutcome Unit)))).api_metadata.data_status =
      some "static_fallback" ∧
    (fetch_parlamint_data true none 0 (fetch_with_retry
        ([.timeout] : List (AttemptOutcome Unit)))).api_metadata.data_status =
      some "static_fallback" := by
  have h := C6_static_fallback
    ([.timeout, .httpError 500, .requestException])
    ([.rateLimited, .timeout, .timeout]) ([.timeout])
    (by decide) (by decide) (by decide)
    true true true none none none 0 0 0
    (Or.inl rfl) (Or.inl rfl) (Or.inl rfl)
  exact ⟨by decide, h.2.2.2.2.1, h.2.2.2.2.2.2.1, h.2.2.2.2.2.2.2.2⟩

/-- The Kalman update preserves `Q`, `R` and the nonnegativity (in fact
positivity after one step) of the variance `P`. -/
theorem kalman_update_invariant (st : KalmanState) (z u : ℚ)
    (hQ : st.Q = 0.01) (hR : st.R = 0.05) (hP : 0 ≤ st.P) :
    (kalman_update st z u).1.Q = 0.01 ∧ (kalman_update st z u).1.R = 0.05 ∧
      0 ≤ (kalman_update st z u).1.P := by
  refine ⟨hQ, hR, ?_⟩
  show 0 ≤ (1 - (1 * st.P * 1 + st.Q) * 1 / (1 * (1 * st.P * 1 + st.Q) * 1 + st.R) * 1) *
    (1 * st.P * 1 + st.Q)
  rw [hQ, hR]
  have hPp : (0:ℚ) < 1 * st.P * 1 + 0.01 := by nlinarith
  have hden : (0:ℚ) < 1 * (1 * st.P * 1 + 0.01) * 1 + 0.05 := by nlinarith
  have hK : (1 * st.P * 1 + 0.01) * 1 / (1 * (1 * st.P * 1 + 0.01) * 1 + 0.05) ≤ 1 := by
    rw [div_le_one hden]
    nlinarith
  have h1 : 0 ≤ 1 - (1 * st.P * 1 + 0.01) * 1 / (1 * (1 * st.P * 1 + 0.01) * 1 + 0.05) * 1 := by
    nlinarith
  nlinarith

/-- C3.  For every sequence of `kalman_update` calls with measurements
in `[0, 1]` and intervention effects within the documented slider range
`[0, 0.5]`, starting from the state installed by
`initialize_kalman_filter` (`P = 0.1`, `Q = 0.01`, `R = 0.05`), the
variance `P` is nonnegative after every update (the initial state
included), and so is the reported rounded `uncertainty`.  (The proof
uses no property of the inputs: the recursion keeps `P ≥ 0` for
arbitrary measurements.) -/
theorem C3_kalman_variance_nonneg (country_iso3 : String) (updates : List (ℚ × ℚ))
    (h : ∀ mu ∈ updates, 0 ≤ mu.1 ∧ mu.1 ≤ 1 ∧ 0 ≤ mu.2 ∧ mu.2 ≤ 0.5) :
    (∀ st ∈ kalman_state_chain (initialize_kalman_filter country_iso3) updates,
      0 ≤ st.P) ∧
    (∀ st ∈ kalman_state_chain (initialize_kalman_filter country_iso3) updates,
      ∀ z u : ℚ, 0 ≤ (kalman_update st z u).2.uncertainty) := by
  have main : ∀ (us : List (ℚ × ℚ)) (st : KalmanState),
      st.Q = 0.01 → st.R = 0.05 → 0 ≤ st.P →
      ∀ st' ∈ kalman_state_chain st us, st'.Q = 0.01 ∧ st'.R = 0.05 ∧ 0 ≤ st'.P := by
    intro us
    induction us with
    | nil =>
      intro st hQ hR hP st' hst'
      simp only [kalman_state_chain, List.scanl] at hst'
      simp only [List.mem_singleton] at hst'
      subst hst'
      exact ⟨hQ, hR, hP⟩
    | cons u us ih =>
      intro st hQ hR hP st' hst'
      simp only [kalman_state_chain, List.scanl, List.mem_cons] at hst'
      rcases hst' with rfl | hst'
      · exact ⟨hQ, hR, hP⟩
      · obtain ⟨hQ', hR', hP'⟩ := kalman_update_invariant st u.1 u.2 hQ hR hP
        exact ih _ hQ' hR' hP' st' hst'
  have hinit : (initialize_kalman_filter country_iso3).Q = 0.01 ∧
      (initialize_kalman_filter country_iso3).R = 0.05 ∧
      0 ≤ (initialize_kalman_filter country_iso3).P := by
    refine ⟨rfl, rfl, by norm_num [initialize_kalman_filter]⟩
  constructor
  · intro st hst
    exact (main updates _ hinit.1 hinit.2.1 hinit.2.2 st hst).2.2
  · intro st hst z u
    obtain ⟨hQ, hR, hP⟩ := main updates _ hinit.1 hinit.2.1 hinit.2.2 st hst
    have := (kalman_update_invariant st z u hQ hR hP).2.2
    exact roundQ3_nonneg this

/-- Witness for C3: three in-range updates starting from the `"USA"`
filter. -/
theorem C3_witness :
    (∀ mu ∈ ([(0.7, 0.1), (0.3, 0.5), (1, 0)] : List (ℚ × ℚ)),
      0 ≤ mu.1 ∧ mu.1 ≤ 1 ∧ 0 ≤ mu.2 ∧ mu.2 ≤ 0.5) ∧
    (∀ st ∈ kalman_state_chain (initialize_kalman_filter "USA")
        ([(0.7, 0.1), (0.3, 0.5), (1, 0)] : List (ℚ × ℚ)), 0 ≤ st.P) := by
  refine ⟨by norm_num, ?_⟩
  exact (C3_kalman_variance_nonneg "USA" _ (by norm_num)).1

/-- Componentwise bounds of `np.clip(·, 0, 1)`. -/
theorem clip01_mem (q : ℚ) : 0 ≤ clip01 q ∧ clip01 q ≤ 1 :=
  ⟨le_max_left _ _, max_le (by norm_num) (min_le_left _ _)⟩

/-- Every state in the diffusion trajectory has all components in
`[0, 1]`. -/
theorem diffusion_states_mem (influence_strength : ℚ) :
    ∀ (n : ℕ) (x : Fin 7 → ℚ),
      ∀ st ∈ diffusion_states influence_strength n x, ∀ i, 0 ≤ st i ∧ st i ≤ 1 := by
  intro n
  induction n with
  | zero => intro x st hst i; simp [diffusion_states] at hst
  | succ n ih =>
    intro x st hst i
    simp only [diffusion_states, List.mem_cons] at hst
    rcases hst with rfl | hst
    · exact clip01_mem _
    · exact ih _ st hst i

/-- C9.  For every choice of initial adopters, any number of rounds and
any influence strength in `[0, 1]`, `simulate_policy_diffusion` keeps
every country's adoption value in every trajectory state within
`[0, 1]`; consequently every `final_adoption` value and the
`cascade_probability` also lie in `[0, 1]`. -/
theorem C9_diffusion_bounds (initial_adopters : List String) (policy : String)
    (rounds : ℕ) (influence_strength : ℚ)
    (h0 : 0 ≤ influence_strength) (h1 : influence_strength ≤ 1) :
    (∀ st ∈ (simulate_policy_diffusion initial_adopters policy rounds
        influence_strength).trajectory, ∀ i, 0 ≤ st i ∧ st i ≤ 1) ∧
    (∀ i, 0 ≤ (simulate_policy_diffusion initial_adopters policy rounds
        influence_strength).final_adoption i ∧
      (simulate_policy_diffusion initial_adopters policy rounds
        influence_strength).final_adoption i ≤ 1) ∧
    (0 ≤ (simulate_policy_diffusion initial_adopters policy rounds
        influence_strength).cascade_probability ∧
      (simulate_policy_diffusion initial_adopters policy rounds
        influence_strength).cascade_probability ≤ 1) := by
  have hx0 : ∀ i, 0 ≤ initial_adoption_state initial_adopters i ∧
      initial_adoption_state initial_adopters i ≤ 1 := by
    intro i
    unfold initial_adoption_state
    split_ifs <;> norm_num
  have hiter : ∀ (n : ℕ) (i : Fin 7),
      0 ≤ ((diffusion_step influence_strength)^[n]
        (initial_adoption_state initial_adopters)) i ∧
      ((diffusion_step influence_strength)^[n]
        (initial_adoption_state initial_adopters)) i ≤ 1 := by
    intro n
    induction n with
    | zero => simpa using hx0
    | succ n ih =>
      intro i
      rw [Function.iterate_succ_apply']
      exact clip01_mem _
  refine ⟨?_, ?_, ?_⟩
  · intro st hst i
    simp only [simulate_policy_diffusion, List.mem_cons] at hst
    rcases hst with rfl | hst
    · exact hx0 i
    · exact diffusion_states_mem influence_strength rounds _ st hst i
  · intro i
    exact roundQ3_mem01 (hiter rounds i).1 (hiter rounds i).2
  · constructor
    · unfold simulate_policy_diffusion
      positivity
    · show ((Finset.univ.filter _).card : ℚ) / 7 ≤ 1
      rw [div_le_one (by norm_num)]
      have : (Finset.univ.filter fun i =>
          (7:ℚ)/10 < ((diffusion_step influence_strength)^[rounds]
            (initial_adoption_state initial_adopters)) i).card ≤
          (Finset.univ : Finset (Fin 7)).card := Finset.card_filter_le _ _
      have h7 : ((Finset.univ : Finset (Fin 7)).card : ℚ) = 7 := by simp
      exact_mod_cast le_trans (Nat.cast_le.mpr this) (le_of_eq h7)

/-- Witness for C9: one initial adopter, three rounds, the default
influence strength 0.3. -/
theorem C9_witness :
    0 ≤ (0.3:ℚ) ∧ (0.3:ℚ) ≤ 1 ∧
    (∀ st ∈ (simulate_policy_diffusion ["USA"] "AI Ethics" 3 0.3).trajectory,
      ∀ i, 0 ≤ st i ∧ st i ≤ 1) ∧
    (0 ≤ (simulate_policy_diffusion ["USA"] "AI Ethics" 3 0.3).cascade_probability ∧
      (simulate_policy_diffusion ["USA"] "AI Ethics" 3 0.3).cascade_probability ≤ 1) := by
  have h := C9_diffusion_bounds ["USA"] "AI Ethics" 3 0.3 (by norm_num) (by norm_num)
  exact ⟨by norm_num, by norm_num, h.1, h.2.2⟩

/-- Concrete facts about the float constants. -/
theorem fl_const_facts :
    (0:ℚ) < fl 0.1 ∧ fl 0.01 < fl 0.1 ∧ (0:ℚ) < fl 0.01 := by decide

/-- Whenever the computed alignment gap is nonzero, not equal to the
float threshold, and the combined cooperativeness `alpha` is at least
the float `0.3` and inside `(0, 1)`, `predict_convergence_timeline`
returns, with probability in `[0, 1]` and rounds in `[1, 20]`. -/
theorem predict_bounds (country_a country_b policy : String)
    (hgap0 : ethical_gap_val country_a country_b policy ≠ 0)
    (hgapT : ethical_gap_val country_a country_b policy ≠ fl 0.1)
    (halpha : ¬(alpha_val country_a country_b < fl 0.3))
    (ha0 : 0 < alpha_val country_a country_b)
    (ha1 : alpha_val country_a country_b < 1) :
    ∃ r, predict_convergence_timeline country_a country_b policy = .ok r ∧
      0 ≤ r.probability_success ∧ r.probability_success ≤ 1 ∧
      1 ≤ r.expected_rounds ∧ r.expected_rounds ≤ 20 := by
  unfold predict_convergence_timeline
  rw [if_neg hgap0]
  by_cases hlt : ethical_gap_val country_a country_b policy < fl 0.1
  · rw [if_pos hlt]
    refine ⟨_, rfl, ?_, ?_, ?_, ?_⟩
    · exact (roundR3_mem01 (by norm_num) (by norm_num)).1
    · exact (roundR3_mem01 (by norm_num) (by norm_num)).2
    · norm_num
    · norm_num
  · rw [if_neg hlt, if_neg halpha]
    have hgapgt : fl 0.1 < ethical_gap_val country_a country_b policy :=
      lt_of_le_of_ne (not_lt.mp hlt) (Ne.symm hgapT)
    obtain ⟨hT0, hCT, hC0⟩ := fl_const_facts
    -- real-side positivity facts
    have hTR : (0:ℝ) < (fl 0.1 : ℚ) := by exact_mod_cast hT0
    have hgapR : ((fl 0.1 : ℚ) : ℝ) < (ethical_gap_val country_a country_b policy : ℝ) := by
      exact_mod_cast hgapgt
    have hgapRpos : (0:ℝ) < (ethical_gap_val country_a country_b policy : ℝ) :=
      lt_trans hTR hgapR
    have hmax : max (ethical_gap_val country_a country_b policy : ℝ) ((fl 0.01 : ℚ) : ℝ) =
        (ethical_gap_val country_a country_b policy : ℝ) := by
      apply max_eq_left
      have : ((fl 0.01 : ℚ) : ℝ) < ((fl 0.1 : ℚ) : ℝ) := by exact_mod_cast hCT
      linarith
    have hratio1 : ((fl 0.1 : ℚ) : ℝ) / (ethical_gap_val country_a country_b policy : ℝ) < 1 :=
      (div_lt_one hgapRpos).mpr hgapR
    have hratio0 : (0:ℝ) < ((fl 0.1 : ℚ) : ℝ) / (ethical_gap_val country_a country_b policy : ℝ) :=
      div_pos hTR hgapRpos
    have hlogn : Real.log (((fl 0.1 : ℚ) : ℝ) /
        (ethical_gap_val country_a country_b policy : ℝ)) < 0 :=
      Real.log_neg hratio0 hratio1
    have ha0R : (0:ℝ) < (alpha_val country_a country_b : ℝ) := by exact_mod_cast ha0
    have ha1R : (alpha_val country_a country_b : ℝ) < 1 := by exact_mod_cast ha1
    have hbase0 : (0:ℝ) < 1 - (alpha_val country_a country_b : ℝ) * 0.3 := by nlinarith
    have hbase1 : 1 - (alpha_val country_a country_b : ℝ) * 0.3 < 1 := by nlinarith
    have hlogd : Real.log (1 - (alpha_val country_a country_b : ℝ) * 0.3) < 0 :=
      Real.log_neg hbase0 hbase1
    have hLpos : 0 < Real.log (((fl 0.1 : ℚ) : ℝ) /
          max (ethical_gap_val country_a country_b policy : ℝ) ((fl 0.01 : ℚ) : ℝ)) /
        Real.log (1 - (alpha_val country_a country_b : ℝ) * 0.3) := by
      rw [hmax]
      exact div_pos_of_neg_of_neg hlogn hlogd
    have hr1 : 1 ≤ log_rounds country_a country_b policy := by
      unfold log_rounds
      refine le_min ?_ (by norm_num)
      exact Int.ceil_pos.mpr hLpos
    have hr20 : log_rounds country_a country_b policy ≤ 20 := by
      unfold log_rounds
      exact min_le_right _ _
    have hrR : (1:ℝ) ≤ (log_rounds country_a country_b policy : ℝ) := by exact_mod_cast hr1
    have hargneg : -(alpha_val country_a country_b : ℝ) *
        (log_rounds country_a country_b policy : ℝ) * 0.15 < 0 := by nlinarith
    have hexp1 : Real.exp (-(alpha_val country_a country_b : ℝ) *
        (log_rounds country_a country_b policy : ℝ) * 0.15) < 1 := by
      rw [Real.exp_lt_one_iff]
      exact hargneg
    have hexp0 : 0 < Real.exp (-(alpha_val country_a country_b : ℝ) *
        (log_rounds country_a country_b policy : ℝ) * 0.15) := Real.exp_pos _
    refine ⟨_, rfl, ?_, ?_, hr1, hr20⟩
    · exact (roundR3_mem01 (by linarith) (by linarith)).1
    · exact (roundR3_mem01 (by linarith) (by linarith)).2

/-- C1 (amended).  For every pair of country codes and every policy
scenario **whose two computed alignment scores differ**,
`predict_convergence_timeline` returns, with `probability_success` in
`[0, 1]` and `expected_rounds` in `[1, 20]`.  (When the scores are
exactly equal the function raises `ZeroDivisionError` instead of
returning — see `C1_counterexample`.) -/
theorem C1_convergence_bounds_when_gap_nonzero (country_a country_b policy : String)
    (h : calculate_ethical_alignment country_a policy ≠
      calculate_ethical_alignment country_b policy) :
    ∃ r, predict_convergence_timeline country_a country_b policy = .ok r ∧
      0 ≤ r.probability_success ∧ r.probability_success ≤ 1 ∧
      1 ≤ r.expected_rounds ∧ r.expected_rounds ≤ 20 := by
  obtain ⟨ta, hta, hOa, hPa, hAa⟩ := country_profile_cases country_a
  obtain ⟨tb, htb, hOb, hPb, hAb⟩ := country_profile_cases country_b
  obtain ⟨tp, htp, hW⟩ := policy_weight_cases policy
  have hea := calculate_ethical_alignment_congr hOa hPa hW
  have heb := calculate_ethical_alignment_congr hOb hPb hW
  have hgapc := ethical_gap_val_congr hea heb
  have halc := alpha_val_congr hAa hAb
  have hne : calculate_ethical_alignment ta tp ≠ calculate_ethical_alignment tb tp := by
    rw [← hea, ← heb]; exact h
  apply predict_bounds
  · rw [hgapc]; exact (gap_val_facts ta hta tb htb tp htp).2 hne
  · rw [hgapc]; exact (gap_val_facts ta hta tb htb tp htp).1
  · rw [halc]; exact (alpha_val_facts ta hta tb htb).1
  · rw [halc]; exact (alpha_val_facts ta hta tb htb).2.1
  · rw [halc]; exact (alpha_val_facts ta hta tb htb).2.2

/-- Witness for the amended C1 at `("USA", "GBR", "AI Ethics")` (whose
alignment scores differ). -/
theorem C1_witness :
    calculate_ethical_alignment "USA" "AI Ethics" ≠
      calculate_ethical_alignment "GBR" "AI Ethics" ∧
    ∃ r, predict_convergence_timeline "USA" "GBR" "AI Ethics" = .ok r ∧
      0 ≤ r.probability_success ∧ r.probability_success ≤ 1 ∧
      1 ≤ r.expected_rounds ∧ r.expected_rounds ≤ 20 :=
  ⟨by decide, C1_convergence_bounds_when_gap_nonzero "USA" "GBR" "AI Ethics" (by decide)⟩

/-- Counterexample to C1 as stated: at `("USA", "USA", "AI Ethics")` the
two alignment scores are equal, the first trajectory iteration divides
by the zero `ethical_gap`, and the function raises `ZeroDivisionError`
instead of returning values in the claimed ranges. -/
theorem C1_counterexample :
    ¬ ∃ r, predict_convergence_timeline "USA" "USA" "AI Ethics" = .ok r ∧
      0 ≤ r.probability_success ∧ r.probability_success ≤ 1 ∧
      1 ≤ r.expected_rounds ∧ r.expected_rounds ≤ 20 := by
  have herr : predict_convergence_timeline "USA" "USA" "AI Ethics" =
      .error "ZeroDivisionError: float division by zero" := by
    unfold predict_convergence_timeline
    rw [if_pos (by decide : ethical_gap_val "USA" "USA" "AI Ethics" = 0)]
  rintro ⟨r, hr, -⟩
  rw [herr] at hr
  exact Except.noConfusion hr

/-- C2 (failing evaluation).  The claim says that with an alignment gap
of exactly 0 the function returns `expected_rounds = 1` and
`probability_success = 0.95`; the `rounds = 1 / probability = 0.95`
branch is indeed selected (lines 475-477), but the unrolled trajectory
(lines 486-495) then evaluates `current_gap / ethical_gap` with
`ethical_gap = 0.0` and CPython raises `ZeroDivisionError`, so nothing
is returned.  Evaluation at the failing input `("JPN", "JPN",
"AI Safety")`, whose alignment scores are equal by construction: -/
theorem C2_equal_gap_raises :
    calculate_ethical_alignment "JPN" "AI Safety" =
      calculate_ethical_alignment "JPN" "AI Safety" ∧
    predict_convergence_timeline "JPN" "JPN" "AI Safety" =
      .error "ZeroDivisionError: float division by zero" := by
  refine ⟨rfl, ?_⟩
  unfold predict_convergence_timeline
  rw [if_pos (by decide : ethical_gap_val "JPN" "JPN" "AI Safety" = 0)]

/-- C4 (amended).  For every 4-dimensional feature vector built from
slider values in `[0, 1]` **that is not the all-zero vector** (i.e. the
three sliders are not all zero), the cosine similarity of the vector
with an identical copy of itself is 1.0 within `1e-9` (here: exactly 1).
At the all-zero sliders the similarity is 0 — see
`C4_counterexample`. -/
theorem C4_self_similarity (power_asymmetry issue_salience time_pressure : ℚ)
    (h1 : 0 ≤ power_asymmetry ∧ power_asymmetry ≤ 1)
    (h2 : 0 ≤ issue_salience ∧ issue_salience ≤ 1)
    (h3 : 0 ≤ time_pressure ∧ time_pressure ≤ 1)
    (hnz : ¬(power_asymmetry = 0 ∧ issue_salience = 0 ∧ time_pressure = 0)) :
    |cosine_similarity
        (current_features power_asymmetry issue_salience time_pressure)
        (current_features power_asymmetry issue_salience time_pressure) - 1| ≤ 1e-9 := by
  have hne : power_asymmetry ≠ 0 ∨ issue_salience ≠ 0 ∨ time_pressure ≠ 0 := by tauto
  have hev : (∑ i, ((current_features power_asymmetry issue_salience time_pressure) i : ℝ)^2) =
      (power_asymmetry:ℝ)^2 + (issue_salience:ℝ)^2 + (time_pressure:ℝ)^2 +
        (((power_asymmetry:ℝ) + (issue_salience:ℝ))/2)^2 := by
    simp only [current_features, Fin.sum_univ_four, Matrix.cons_val_zero,
      Matrix.cons_val_one, Matrix.head_cons, Matrix.cons_val_two, Matrix.tail_cons,
      Matrix.cons_val_three, Matrix.head_fin_const]
    push_cast
    ring
  have hsum : (0:ℝ) < ∑ i,
      ((current_features power_asymmetry issue_salience time_pressure) i : ℝ)^2 := by
    rw [hev]
    have s1 := sq_nonneg (power_asymmetry:ℝ)
    have s2 := sq_nonneg (issue_salience:ℝ)
    have s3 := sq_nonneg (time_pressure:ℝ)
    have s4 := sq_nonneg (((power_asymmetry:ℝ) + (issue_salience:ℝ))/2)
    rcases hne with h | h | h
    · have hx : (power_asymmetry:ℝ) ≠ 0 := by exact_mod_cast h
      have : (0:ℝ) < (power_asymmetry:ℝ)^2 :=
        lt_of_le_of_ne s1 (Ne.symm (pow_ne_zero 2 hx))
      nlinarith
    · have hx : (issue_salience:ℝ) ≠ 0 := by exact_mod_cast h
      have : (0:ℝ) < (issue_salience:ℝ)^2 :=
        lt_of_le_of_ne s2 (Ne.symm (pow_ne_zero 2 hx))
      nlinarith
    · have hx : (time_pressure:ℝ) ≠ 0 := by exact_mod_cast h
      have : (0:ℝ) < (time_pressure:ℝ)^2 :=
        lt_of_le_of_ne s3 (Ne.symm (pow_ne_zero 2 hx))
      nlinarith
  have hdot : (∑ i, ((current_features power_asymmetry issue_salience time_pressure) i : ℝ) *
        ((current_features power_asymmetry issue_salience time_pressure) i : ℝ)) =
      ∑ i, ((current_features power_asymmetry issue_salience time_pressure) i : ℝ)^2 :=
    Finset.sum_congr rfl (fun i _ => (sq _).symm)
  have hone : cosine_similarity
      (current_features power_asymmetry issue_salience time_pressure)
      (current_features power_asymmetry issue_salience time_pressure) = 1 := by
    unfold cosine_similarity
    rw [hdot, Real.mul_self_sqrt hsum.le, div_self (ne_of_gt hsum)]
  rw [hone]
  norm_num

/-- Witness for the amended C4 at sliders `(1/2, 1/2, 1/2)`. -/
theorem C4_witness :
    |cosine_similarity (current_features (1/2) (1/2) (1/2))
        (current_features (1/2) (1/2) (1/2)) - 1| ≤ 1e-9 :=
  C4_self_similarity (1/2) (1/2) (1/2)
    ⟨by norm_num, by norm_num⟩ ⟨by norm_num, by norm_num⟩ ⟨by norm_num, by norm_num⟩
    (by norm_num)

/-- Counterexample to C4 as stated: the sliders `(0, 0, 0)` lie in
`[0, 1]`, produce the all-zero feature vector, and sklearn's
`cosine_similarity` (which maps zero-norm rows to zero) yields 0, not
1 ± 1e-9. -/
theorem C4_counterexample :
    ¬(|cosine_similarity (current_features 0 0 0) (current_features 0 0 0) - 1| ≤ 1e-9) := by
  have hz : cosine_similarity (current_features 0 0 0) (current_features 0 0 0) = 0 := by
    unfold cosine_similarity
    have hnum : (∑ i, ((current_features 0 0 0) i : ℝ) * ((current_features 0 0 0) i : ℝ)) = 0 := by
      simp [current_features, Fin.sum_univ_four]
    rw [hnum, zero_div]
  rw [hz]
  norm_num

/-- C5.  `match_historical_scenarios` returns the five historical
scenarios (a permutation of the five built match entries) sorted by
descending relevance, and each entry's stored relevance is
`round(0.7 * cosine similarity + 0.3 * Jaccard actor overlap, 3)`. -/
theorem C5_matcher_ranked (current_actors : List String)
    (power_asymmetry issue_salience time_pressure : ℚ) :
    (match_historical_scenarios current_actors power_asymmetry issue_salience
        time_pressure).Pairwise (fun x y => y.relevance ≤ x.relevance) ∧
    (match_historical_scenarios current_actors power_asymmetry issue_salience
        time_pressure).Perm (historical_scenarios.map
          (mk_scenario_match current_actors power_asymmetry issue_salience time_pressure)) ∧
    (match_historical_scenarios current_actors power_asymmetry issue_salience
        time_pressure).length = 5 ∧
    ∀ m ∈ match_historical_scenarios current_actors power_asymmetry issue_salience
        time_pressure, ∃ h ∈ historical_scenarios,
      m.scenario = h.name ∧
      m.relevance = roundR3 (cosine_similarity
        (current_features power_asymmetry issue_salience time_pressure) h.features * 0.7 +
        (actor_overlap current_actors h.actors : ℝ) * 0.3) ∧
      m.outcome = h.outcome ∧ m.success_rate = h.success_rate ∧ m.actors = h.actors := by
  have hperm : (match_historical_scenarios current_actors power_asymmetry issue_salience
      time_pressure).Perm (historical_scenarios.map
        (mk_scenario_match current_actors power_asymmetry issue_salience time_pressure)) :=
    List.mergeSort_perm _ _
  refine ⟨?_, hperm, ?_, ?_⟩
  · have htrans : ∀ a b c : ScenarioMatch,
        decide (b.relevance ≤ a.relevance) = true →
        decide (c.relevance ≤ b.relevance) = true →
        decide (c.relevance ≤ a.relevance) = true := by
      intro a b c hab hbc
      simp only [decide_eq_true_eq] at *
      exact le_trans hbc hab
    have htotal : ∀ a b : ScenarioMatch,
        (decide (b.relevance ≤ a.relevance) || decide (a.relevance ≤ b.relevance)) = true := by
      intro a b
      simp only [Bool.or_eq_true, decide_eq_true_eq]
      exact le_total _ _
    have hs := List.sorted_mergeSort htrans htotal
      (historical_scenarios.map
        (mk_scenario_match current_actors power_asymmetry issue_salience time_pressure))
    exact hs.imp (fun h => by simpa using h)
  · rw [hperm.length_eq]
    rfl
  · intro m hm
    have hmem : m ∈ historical_scenarios.map
        (mk_scenario_match current_actors power_asymmetry issue_salience time_pressure) :=
      hperm.mem_iff.mp hm
    obtain ⟨h, hh, rfl⟩ := List.mem_map.mp hmem
    exact ⟨h, hh, rfl, rfl, rfl, rfl, rfl⟩

end Bach
